import Mathlib

/-!
Verification of the libXNAV pulsar-navigation program (src/main.rs).

The Rust source is shallowly embedded: `f64` values become real numbers,
slices become lists, nalgebra vectors and matrices become functions out of
`Fin n` and Mathlib matrices, and every random draw consumed by the code is
passed in explicitly as an oracle argument.  Fallible operations return an
explicit status: nalgebra's dimension assertions are modelled as a
`panicked` outcome and the `try_inverse` failure as a `singularErr`
outcome, each leaving the filter exactly as it was (in the source, no field
of `self` is assigned before the fallible operations succeed).
-/

noncomputable section

/-- Speed of light in km/s, `C_LIGHT` in the source. -/
def C_LIGHT : ℝ := 299792.458

/-- Solar gravitational parameter in km^3/s^2, `GM_SUN` in the source. -/
def GM_SUN : ℝ := 132712440018.0

/-- Rust's `str::split(sep)` on the character list of a string: splits at
every occurrence of `sep`, keeping empty fields, so the result always has
one more field than there are separators. -/
def splitChar (sep : Char) : List Char → List (List Char)
  | [] => [[]]
  | c :: cs =>
      let r := splitChar sep cs
      if c = sep then [] :: r
      else
        match r with
        | [] => [[c]]
        | w :: ws => (c :: w) :: ws

/-- The colon-separated fields of a string, as produced by
`s.split(':').collect::<Vec<&str>>()` in the source. -/
def colonFields (s : String) : List String :=
  (splitChar ':' s.data).map fun l => String.mk l

/-- Embedding of `parse_hms`.  The semantics of Rust's `str::parse::<f64>`
is abstracted as an oracle `pf`; a `pf` failure models the `?` propagation
of the parse error. -/
def parse_hms (pf : String → Option ℝ) (s : String) : Except Unit ℝ :=
  let parts := colonFields s
  if parts.length < 3 then Except.ok 0 else
  match pf (parts.getD 0 ""), pf (parts.getD 1 ""), pf (parts.getD 2 "") with
  | some h, some m, some sec => Except.ok ((h + m / 60 + sec / 3600) * 15)
  | _, _, _ => Except.error ()

/-- Embedding of `parse_dms`. -/
def parse_dms (pf : String → Option ℝ) (s : String) : Except Unit ℝ :=
  let parts := colonFields s
  if parts.length < 3 then Except.ok 0 else
  match pf (parts.getD 0 ""), pf (parts.getD 1 ""), pf (parts.getD 2 "") with
  | some d, some m, some sec =>
      let sign : ℝ := if d < 0 ∨ (parts.getD 0 "").startsWith "-" then -1 else 1
      Except.ok (sign * (|d| + m / 60 + sec / 3600))
  | _, _, _ => Except.error ()

/-- Embedding of the `Pulsar` struct.  The `dir` field is the stored unit
direction vector (`Unit<Vector3<f64>>` in the source). -/
structure Pulsar where
  id : String
  dir : Fin 3 → ℝ
  flux : ℝ
  width : ℝ
  period : ℝ

/-- Euclidean norm of a 3-vector, nalgebra's `.norm()`. -/
def norm3 (v : Fin 3 → ℝ) : ℝ :=
  Real.sqrt (v 0 ^ 2 + v 1 ^ 2 + v 2 ^ 2)

/-- nalgebra's `.normalize()` (and `Unit::new_normalize`): divide by the norm. -/
def normalize3 (v : Fin 3 → ℝ) : Fin 3 → ℝ :=
  fun i => v i / norm3 v

/-- Embedding of `Pulsar::new`. -/
def Pulsar.new (id : String) (ra_deg dec_deg period flux : ℝ) : Pulsar :=
  let ra := ra_deg * (Real.pi / 180)
  let dec := dec_deg * (Real.pi / 180)
  let x := Real.cos dec * Real.cos ra
  let y := Real.cos dec * Real.sin ra
  let z := Real.sin dec
  { id := id
    dir := normalize3 ![x, y, z]
    flux := flux
    width := 0.05
    period := period }

/-- Whether `sub` occurs at the very start of `l`. -/
def startsWithSeq : List Char → List Char → Bool
  | [], _ => true
  | _ :: _, [] => false
  | a :: as, b :: bs => a = b && startsWithSeq as bs

/-- Whether `sub` occurs somewhere inside `l`. -/
def containsSeq (sub : List Char) : List Char → Bool
  | [] => startsWithSeq sub []
  | c :: cs => startsWithSeq sub (c :: cs) || containsSeq sub cs

/-- Rust's `str::contains` (substring containment), used for the flux
heuristic in `from_par_file`. -/
def containsSub (s sub : String) : Bool :=
  containsSeq sub.data s.data

/-- The mutable locals accumulated by the line loop of `from_par_file`. -/
structure ParAcc where
  id : String
  ra : ℝ
  dec : ℝ
  period : ℝ

/-- One iteration of the line loop of `from_par_file`. -/
def processParLine (pf : String → Option ℝ) (acc : ParAcc) (line : String) :
    Except Unit ParAcc :=
  if line.startsWith "#" || line.trim.isEmpty then Except.ok acc else
  let parts := (line.split Char.isWhitespace).filter (fun w => w ≠ "")
  if parts.length < 2 then Except.ok acc else
  match parts.getD 0 "" with
  | "PSR" => Except.ok { acc with id := parts.getD 1 "" }
  | "PSRJ" => Except.ok { acc with id := parts.getD 1 "" }
  | "RAJ" => do
      let v ← parse_hms pf (parts.getD 1 "")
      Except.ok { acc with ra := v }
  | "DECJ" => do
      let v ← parse_dms pf (parts.getD 1 "")
      Except.ok { acc with dec := v }
  | "F0" => Except.ok { acc with period := 1 / ((pf (parts.getD 1 "")).getD 1.0) }
  | "P0" => Except.ok { acc with period := (pf (parts.getD 1 "")).getD 0.010 }
  | _ => Except.ok acc

/-- Embedding of `Pulsar::from_par_file` on the list of lines already read
from the file (the file I/O itself is out of scope; `lines` is its
content). -/
def from_par_lines (pf : String → Option ℝ) (lines : List String) :
    Except Unit Pulsar := do
  let acc ← lines.foldlM (processParLine pf) ⟨"", 0, 0, 0.010⟩
  let flux : ℝ :=
    if containsSub acc.id "1937" then 5.0
    else if containsSub acc.id "0437" then 8.0
    else 1.0
  Except.ok (Pulsar.new acc.id acc.ra acc.dec acc.period flux)

/-- The random draws consumed for a single photon in `simulate_photons`:
the `gen_bool(0.3)` outcome, the raw sample of the `Normal(0.5, w/2.355)`
pulse-phase distribution, the uniform background phase `gen::<f64>()`,
and the uniform window coordinate `gen::<f64>()`. -/
structure PhotonDraw where
  isSignal : Bool
  normalPhase : ℝ
  uniformPhase : ℝ
  windowU : ℝ

/-- Embedding of `Pulsar::simulate_photons`.  The Poisson sample
(`poisson.sample(rng) as usize`) is the oracle `nPhotons`, and the
per-photon draws are the oracle `draws`. -/
def Pulsar.simulate_photons (p : Pulsar) (duration : ℝ)
    (nPhotons : ℕ) (draws : ℕ → PhotonDraw) : List ℝ :=
  if p.flux * duration ≤ 0 then [] else
  let timestamps := (List.range nPhotons).filterMap fun idx =>
    let d := draws idx
    let phase : ℝ :=
      if d.isSignal then d.normalPhase - (⌊d.normalPhase⌋ : ℝ)
      else d.uniformPhase
    let t_window := d.windowU * duration
    let cycles : ℤ := ⌊t_window / p.period⌋
    let final_time := ((cycles : ℝ) + phase) * p.period
    if final_time < duration then some final_time else none
  List.insertionSort (· ≤ ·) timestamps

/-- The cosine between the normalized spacecraft position and the pulsar
direction, as computed inside `shapiro_delay`. -/
def cos_theta (p : Pulsar) (pos : Fin 3 → ℝ) : ℝ :=
  normalize3 pos 0 * p.dir 0 + normalize3 pos 1 * p.dir 1 +
    normalize3 pos 2 * p.dir 2

/-- Embedding of `Pulsar::shapiro_delay`. -/
def Pulsar.shapiro_delay (p : Pulsar) (pos_spacecraft : Fin 3 → ℝ) : ℝ :=
  if norm3 pos_spacecraft < 1 then 0 else
  -(2 * GM_SUN / C_LIGHT ^ 3) * Real.log (1 - cos_theta p pos_spacecraft)

/-- Embedding of the `KalmanFilter` struct. -/
@[ext]
structure KalmanFilter where
  state : Fin 6 → ℝ
  covariance : Matrix (Fin 6) (Fin 6) ℝ

/-- Embedding of `KalmanFilter::new`: position in the first three state
slots, zero velocity, covariance `1000 * I`. -/
def KalmanFilter.new (initial_pos : Fin 3 → ℝ) : KalmanFilter :=
  { state := fun i => if h : i.1 < 3 then initial_pos ⟨i.1, h⟩ else 0
    covariance := (1000 : ℝ) • (1 : Matrix (Fin 6) (Fin 6) ℝ) }

/-- In-place entry assignment `m[(r, c)] = v` on a 6x6 matrix. -/
def setEntry (m : Matrix (Fin 6) (Fin 6) ℝ) (r c : Fin 6) (v : ℝ) :
    Matrix (Fin 6) (Fin 6) ℝ :=
  Matrix.of fun i j => if i = r ∧ j = c then v else m i j

/-- The transition matrix `f` built inside `predict`: the identity with the
entries `(0,3)`, `(1,4)`, `(2,5)` overwritten by `dt`. -/
def Fmat (dt : ℝ) : Matrix (Fin 6) (Fin 6) ℝ :=
  setEntry (setEntry (setEntry 1 0 3 dt) 1 4 dt) 2 5 dt

/-- The process-noise matrix `q` built inside `predict`. -/
def Qmat : Matrix (Fin 6) (Fin 6) ℝ :=
  (0.1 : ℝ) • (1 : Matrix (Fin 6) (Fin 6) ℝ)

/-- Embedding of `KalmanFilter::predict`. -/
def KalmanFilter.predict (kf : KalmanFilter) (dt : ℝ) : KalmanFilter :=
  let f := Fmat dt
  { state := f.mulVec kf.state
    covariance := f * kf.covariance * f.transpose + Qmat }

/-- Observable outcome of a call to `KalmanFilter::update`: a normal
return, the `Err("Singularidade na inversão")` return, or a Rust panic
raised by nalgebra's dimension assertions. -/
inductive UpdateStatus where
  | ok : UpdateStatus
  | singularErr : UpdateStatus
  | panicked : UpdateStatus
deriving DecidableEq

/-- The observation matrix `h` built inside `update`: one row
`[dir.x, dir.y, dir.z, 0, 0, 0]` per pulsar. -/
def Hmat (pulsars : List Pulsar) : Matrix (Fin pulsars.length) (Fin 6) ℝ :=
  Matrix.of fun i j =>
    if j.1 = 0 then (pulsars.get i).dir 0
    else if j.1 = 1 then (pulsars.get i).dir 1
    else if j.1 = 2 then (pulsars.get i).dir 2
    else 0

/-- The measurement-noise matrix `r = diag(variances)` built inside
`update` (read under the already-checked condition that `variances` has
one entry per pulsar). -/
def Rmat (n : ℕ) (variances : List ℝ) : Matrix (Fin n) (Fin n) ℝ :=
  Matrix.diagonal fun i => variances.getD i.1 0

/-- The innovation covariance `s = h * covariance * h^T + r` built inside
`update`. -/
def Smat (kf : KalmanFilter) (pulsars : List Pulsar) (variances : List ℝ) :
    Matrix (Fin pulsars.length) (Fin pulsars.length) ℝ :=
  Hmat pulsars * kf.covariance * (Hmat pulsars).transpose +
    Rmat pulsars.length variances

/-- Embedding of `KalmanFilter::update`.  The two `panicked` cases are the
nalgebra assertions: `DVector::from_iterator(n, ..)` panics when
`measured_delays` yields fewer than `n` elements (extra elements are
ignored), and the addition `h * P * h^T + r` panics when `r` is not
`n x n`.  `try_inverse` fails exactly when `s` has zero determinant, and
the source assigns to `self` only after it succeeds. -/
def KalmanFilter.update (kf : KalmanFilter) (pulsars : List Pulsar)
    (measured_delays variances : List ℝ) : UpdateStatus × KalmanFilter :=
  if measured_delays.length < pulsars.length then (UpdateStatus.panicked, kf)
  else if variances.length ≠ pulsars.length then (UpdateStatus.panicked, kf)
  else
    let z : Fin pulsars.length → ℝ :=
      fun i => -(measured_delays.getD i.1 0) * C_LIGHT
    let h := Hmat pulsars
    let y : Fin pulsars.length → ℝ := fun i => z i - h.mulVec kf.state i
    let s := Smat kf pulsars variances
    if s.det = 0 then (UpdateStatus.singularErr, kf)
    else
      let k := kf.covariance * h.transpose * s⁻¹
      (UpdateStatus.ok,
        { state := fun i => kf.state i + k.mulVec y i
          covariance :=
            ((1 : Matrix (Fin 6) (Fin 6) ℝ) - k * h) * kf.covariance })

/-- Embedding of the per-pulsar measurement construction in `main`
(lines 262-282): given the perfect delay, the simulated photon list and
the raw standard-normal draw `zdraw` behind the `Normal(0, se)` sample,
produce the measurement and the variance pushed to the filter. -/
def measurement_step (p : Pulsar) (perfect_delay : ℝ) (photon_times : List ℝ)
    (zdraw : ℝ) : ℝ × ℝ :=
  let measured_toa_noise : ℝ :=
    if !photon_times.isEmpty then
      let pulse_std_dev := p.width * p.period
      let n : ℝ := photon_times.length
      let standard_error := pulse_std_dev / Real.sqrt n
      standard_error * zdraw
    else 0
  let sigma : ℝ :=
    if !photon_times.isEmpty then
      (p.width * p.period) / Real.sqrt (photon_times.length : ℝ)
    else 1.0e9
  (perfect_delay + measured_toa_noise, (sigma * C_LIGHT) ^ 2)

/-- Modelled from the spec: the transition matrix of section 4.4, the
identity with `dt` coupling position to velocity per axis, used to compare
`predict` against its specification. -/
def FmatSpec (dt : ℝ) : Matrix (Fin 6) (Fin 6) ℝ :=
  Matrix.of fun i j =>
    if i = j then 1
    else if (i = 0 ∧ j = 3) ∨ (i = 1 ∧ j = 4) ∨ (i = 2 ∧ j = 5) then dt
    else 0

/-- A concrete unit-direction pulsar pointing along the x axis, used as a
test input. -/
def pX : Pulsar :=
  { id := "PSR-X", dir := ![1, 0, 0], flux := 1, width := 0.05, period := 1 }

/-- A concrete unit-direction pulsar pointing along the y axis. -/
def pY : Pulsar :=
  { id := "PSR-Y", dir := ![0, 1, 0], flux := 1, width := 0.05, period := 1 }

/-- A concrete unit-direction pulsar pointing along the negative x axis. -/
def pNeg : Pulsar :=
  { id := "PSR-N", dir := ![-1, 0, 0], flux := 1, width := 0.05, period := 1 }

/-- A concrete pulsar with zero flux, used to exercise the empty-sequence
case of the photon simulator. -/
def pZero : Pulsar :=
  { id := "PSR-Z", dir := ![1, 0, 0], flux := 0, width := 0.05, period := 1 }

/-- C9: `KalmanFilter::new` copies the initial position into the first
three state components, zeroes the velocity components, and sets the
covariance to 1000 times the identity. -/
theorem kalman_new_spec (p : Fin 3 → ℝ) :
    (KalmanFilter.new p).state 0 = p 0 ∧
    (KalmanFilter.new p).state 1 = p 1 ∧
    (KalmanFilter.new p).state 2 = p 2 ∧
    (KalmanFilter.new p).state 3 = 0 ∧
    (KalmanFilter.new p).state 4 = 0 ∧
    (KalmanFilter.new p).state 5 = 0 ∧
    ∀ i j : Fin 6,
      (KalmanFilter.new p).covariance i j = if i = j then 1000 else 0 := by
  refine ⟨rfl, rfl, rfl, rfl, rfl, rfl, fun i j => ?_⟩
  by_cases h : i = j <;>
    simp [KalmanFilter.new, Matrix.smul_apply, Matrix.one_apply, h]

/-- C10: both `parse_hms` and `parse_dms` return `Ok(0.0)` whenever the
input has fewer than three colon-separated fields, regardless of the
float-parsing semantics. -/
theorem parse_short_zero (pf : String → Option ℝ) (s : String)
    (hs : (colonFields s).length < 3) :
    parse_hms pf s = Except.ok 0 ∧ parse_dms pf s = Except.ok 0 := by
  constructor <;> simp [parse_hms, parse_dms, if_pos hs]

/-- Witness for C10 at the concrete malformed input `"12:34"`. -/
theorem parse_short_zero_witness :
    ((colonFields "12:34").length < 3) ∧
    parse_hms (fun _ => none) "12:34" = Except.ok 0 ∧
    parse_dms (fun _ => none) "12:34" = Except.ok 0 := by
  have hs : (colonFields "12:34").length < 3 := by decide
  exact ⟨hs, parse_short_zero (fun _ => none) "12:34" hs⟩

theorem Fmat_eq_spec (dt : ℝ) : Fmat dt = FmatSpec dt := by
  ext i j
  fin_cases i <;> fin_cases j <;>
    simp [Fmat, FmatSpec, setEntry, Matrix.one_apply]

theorem Qmat_eq_diagonal :
    Qmat = Matrix.diagonal (fun _ : Fin 6 => (0.1 : ℝ)) := by
  ext i j
  by_cases h : i = j <;>
    simp [Qmat, Matrix.smul_apply, Matrix.one_apply, Matrix.diagonal_apply, h]

/-- C5: `predict(dt)` maps the state to `F * x` and the covariance to
`F * P * F^T + Q`, where `F` is the identity with `dt` at the positions
`(0,3)`, `(1,4)`, `(2,5)` (as described by `FmatSpec`) and `Q` is the
constant diagonal matrix `0.1 * I`, independent of `dt`. -/
theorem predict_spec (kf : KalmanFilter) (dt : ℝ) :
    (kf.predict dt).state = (FmatSpec dt).mulVec kf.state ∧
    (kf.predict dt).covariance =
      FmatSpec dt * kf.covariance * (FmatSpec dt).transpose +
        Matrix.diagonal (fun _ : Fin 6 => (0.1 : ℝ)) := by
  constructor
  · show (Fmat dt).mulVec kf.state = (FmatSpec dt).mulVec kf.state
    rw [Fmat_eq_spec]
  · show Fmat dt * kf.covariance * (Fmat dt).transpose + Qmat = _
    rw [Fmat_eq_spec, Qmat_eq_diagonal]

/-- C7: updating with an empty pulsar list (and empty measurement and
variance lists) succeeds and leaves the filter unchanged. -/
theorem update_empty_noop (kf : KalmanFilter) :
    kf.update ([] : List Pulsar) ([] : List ℝ) ([] : List ℝ) =
      (UpdateStatus.ok, kf) := by
  haveI hE : IsEmpty (Fin (List.length ([] : List Pulsar))) :=
    ⟨fun i => Fin.elim0 ⟨i.1, i.2⟩⟩
  have hdet : ¬ (Smat kf [] []).det = 0 := by
    rw [Matrix.det_isEmpty]
    norm_num
  have h1 : ¬ (([] : List ℝ).length < ([] : List Pulsar).length) := by simp
  have h2 : ¬ (([] : List ℝ).length ≠ ([] : List Pulsar).length) := by simp
  have hzero :
      ∀ (a : Matrix (Fin 6) (Fin (List.length ([] : List Pulsar))) ℝ)
        (b : Matrix (Fin (List.length ([] : List Pulsar))) (Fin 6) ℝ),
        a * b = 0 := by
    intro a b
    ext u v
    simp [Matrix.mul_apply, Finset.univ_eq_empty]
  have hmv :
      ∀ (a : Matrix (Fin 6) (Fin (List.length ([] : List Pulsar))) ℝ)
        (w : Fin (List.length ([] : List Pulsar)) → ℝ) (i : Fin 6),
        a.mulVec w i = 0 := by
    intro a w i
    simp [Matrix.mulVec, Matrix.dotProduct, Finset.univ_eq_empty]
  simp only [KalmanFilter.update, if_neg h1, if_neg h2, if_neg hdet]
  refine Prod.ext rfl ?_
  show KalmanFilter.mk _ _ = kf
  refine KalmanFilter.ext ?_ ?_
  · funext i
    show kf.state i + _ = kf.state i
    rw [hmv, add_zero]
  · show (1 - _ * Hmat []) * kf.covariance = kf.covariance
    rw [hzero, sub_zero, one_mul]

/-- C2 (amended): `update` performs no length validation of its own and
never produces a dimension error value: the call panics (inside nalgebra's
assertions) exactly when the measurement list is shorter than the pulsar
list or the variance list length differs from the pulsar list length;
in every other case, including a strictly longer measurement list, it
proceeds normally. -/
theorem update_panic_iff (kf : KalmanFilter) (pulsars : List Pulsar)
    (measured_delays variances : List ℝ) :
    (kf.update pulsars measured_delays variances).1 = UpdateStatus.panicked ↔
      measured_delays.length < pulsars.length ∨
        variances.length ≠ pulsars.length := by
  by_cases h1 : measured_delays.length < pulsars.length
  · simp [KalmanFilter.update, h1]
  · by_cases h2 : variances.length ≠ pulsars.length
    · simp [KalmanFilter.update, h1, h2]
    · by_cases h3 : (Smat kf pulsars variances).det = 0
      · simp [KalmanFilter.update, h1, h2, h3]
      · simp [KalmanFilter.update, h1, h2, h3]

/-- C2 counterexample: the three slice lengths are 2, 3 and 2 — not all
equal — yet `update` returns success rather than any error: the extra
measurement entry is silently ignored. -/
theorem update_mismatch_ok_counterexample :
    ((KalmanFilter.new ![0, 0, 0]).update [pX, pY] [0, 0, 0] [1, 1]).1 =
      UpdateStatus.ok := by
  have h1 : ¬ (([0, 0, 0] : List ℝ).length < [pX, pY].length) := by simp
  have h2 : ¬ (([1, 1] : List ℝ).length ≠ [pX, pY].length) := by simp
  have hd : ¬ (Smat (KalmanFilter.new ![0, 0, 0]) [pX, pY] [1, 1]).det = 0 := by
    have hd1 : ((Smat (KalmanFilter.new ![0, 0, 0]) [pX, pY] [1, 1] :
        Matrix (Fin 2) (Fin 2) ℝ)).det ≠ 0 := by
      rw [Matrix.det_fin_two]
      simp [Smat, Hmat, Rmat, pX, pY, KalmanFilter.new, Matrix.add_apply,
        Matrix.mul_apply, Matrix.transpose_apply, Matrix.of_apply,
        Matrix.smul_apply, Matrix.one_apply, Matrix.diagonal_apply,
        Fin.sum_univ_six, Fin.coe_ofNat_eq_mod]
      norm_num
    exact hd1
  simp only [KalmanFilter.update, if_neg h1, if_neg h2, if_neg hd]

/-- C1: whenever the innovation covariance `S` built inside `update` is
singular (and the call does not already panic on a length mismatch),
`update` returns the singularity error and the filter is returned exactly
as it was: no field is mutated on the error path. -/
theorem update_singular_no_mutation (kf : KalmanFilter) (pulsars : List Pulsar)
    (measured_delays variances : List ℝ)
    (hlen : pulsars.length ≤ measured_delays.length)
    (hvar : variances.length = pulsars.length)
    (hsing : (Smat kf pulsars variances).det = 0) :
    kf.update pulsars measured_delays variances =
      (UpdateStatus.singularErr, kf) := by
  have h1 : ¬ (measured_delays.length < pulsars.length) := Nat.not_lt.mpr hlen
  have h2 : ¬ (variances.length ≠ pulsars.length) := fun hx => hx hvar
  simp only [KalmanFilter.update, if_neg h1, if_neg h2, if_pos hsing]

/-- Witness for C1: two copies of the same pulsar with zero variances make
`S` a singular 2x2 matrix, and `update` then reports the singularity and
returns the filter unchanged. -/
theorem update_singular_no_mutation_witness :
    [pX, pX].length ≤ ([0, 0] : List ℝ).length ∧
    ([0, 0] : List ℝ).length = [pX, pX].length ∧
    (Smat (KalmanFilter.new ![0, 0, 0]) [pX, pX] [0, 0]).det = 0 ∧
    (KalmanFilter.new ![0, 0, 0]).update [pX, pX] [0, 0] [0, 0] =
      (UpdateStatus.singularErr, KalmanFilter.new ![0, 0, 0]) := by
  have hd : ((Smat (KalmanFilter.new ![0, 0, 0]) [pX, pX] [0, 0] :
      Matrix (Fin 2) (Fin 2) ℝ)).det = 0 := by
    rw [Matrix.det_fin_two]
    simp [Smat, Hmat, Rmat, pX, KalmanFilter.new, Matrix.add_apply,
      Matrix.mul_apply, Matrix.transpose_apply, Matrix.of_apply,
      Matrix.smul_apply, Matrix.one_apply, Matrix.diagonal_apply,
      Fin.sum_univ_six, Fin.coe_ofNat_eq_mod]
  exact ⟨by simp, by simp,
    hd, update_singular_no_mutation _ _ _ _ (by simp) (by simp) hd⟩

theorem norm3_two_zero_zero : norm3 ![(2:ℝ), 0, 0] = 2 := by
  unfold norm3
  norm_num
  rw [show (4:ℝ) = 2 ^ 2 by norm_num, Real.sqrt_sq (by norm_num : (0:ℝ) ≤ 2)]

theorem cos_theta_pNeg_two : cos_theta pNeg ![(2:ℝ), 0, 0] = -1 := by
  unfold cos_theta normalize3
  rw [norm3_two_zero_zero]
  norm_num [pNeg]

/-- C3 counterexample: at the position `(2, 0, 0)` with a pulsar pointing
along `(-1, 0, 0)` we have `cos θ = -1 < 1` and magnitude 2 ≥ 1, yet the
Shapiro delay is strictly negative, refuting non-negativity for all
`cos θ < 1`. -/
theorem shapiro_negative_counterexample :
    cos_theta pNeg ![(2:ℝ), 0, 0] < 1 ∧ 1 ≤ norm3 ![(2:ℝ), 0, 0] ∧
    pNeg.shapiro_delay ![(2:ℝ), 0, 0] < 0 := by
  have hn := norm3_two_zero_zero
  have hc := cos_theta_pNeg_two
  have heq : pNeg.shapiro_delay ![(2:ℝ), 0, 0] =
      -(2 * GM_SUN / C_LIGHT ^ 3) *
        Real.log (1 - cos_theta pNeg ![(2:ℝ), 0, 0]) := by
    unfold Pulsar.shapiro_delay
    rw [if_neg (by rw [hn]; norm_num)]
  have hfac : 0 < 2 * GM_SUN / C_LIGHT ^ 3 := by
    unfold GM_SUN C_LIGHT
    positivity
  have hlog : 0 < Real.log (1 - cos_theta pNeg ![(2:ℝ), 0, 0]) := by
    rw [hc]
    norm_num
    exact Real.log_pos (by norm_num)
  refine ⟨by rw [hc]; norm_num, by rw [hn]; norm_num, ?_⟩
  rw [heq]
  exact mul_neg_of_neg_of_pos (by linarith) hlog

/-- C3 (amended): `shapiro_delay` returns exactly 0 when the position
magnitude is below 1; for magnitude at least 1 it equals
`-(2 GM_sun / c^3) * ln(1 - cos θ)`, and that value is non-negative
provided additionally `0 ≤ cos θ < 1` (for `cos θ < 0` it is negative). -/
theorem shapiro_delay_cases (p : Pulsar) (pos : Fin 3 → ℝ) :
    (norm3 pos < 1 → p.shapiro_delay pos = 0) ∧
    (1 ≤ norm3 pos →
      p.shapiro_delay pos =
        -(2 * GM_SUN / C_LIGHT ^ 3) * Real.log (1 - cos_theta p pos)) ∧
    (1 ≤ norm3 pos → 0 ≤ cos_theta p pos → cos_theta p pos < 1 →
      0 ≤ p.shapiro_delay pos) := by
  have heq : 1 ≤ norm3 pos →
      p.shapiro_delay pos =
        -(2 * GM_SUN / C_LIGHT ^ 3) * Real.log (1 - cos_theta p pos) := by
    intro h
    unfold Pulsar.shapiro_delay
    rw [if_neg (not_lt.mpr h)]
  refine ⟨fun h => ?_, heq, fun h h0 h1 => ?_⟩
  · unfold Pulsar.shapiro_delay
    rw [if_pos h]
  · rw [heq h]
    have hfac : 0 ≤ 2 * GM_SUN / C_LIGHT ^ 3 := by
      unfold GM_SUN C_LIGHT
      positivity
    have hlog : Real.log (1 - cos_theta p pos) ≤ 0 :=
      Real.log_nonpos (by linarith) (by linarith)
    nlinarith

/-- Witness for C3 (amended) at the origin-like position `(0, 0, 0)` and
at the position `(3, 4, 0)` with the x-axis pulsar, where `cos θ = 3/5`. -/
theorem shapiro_delay_cases_witness :
    norm3 ![(0:ℝ), 0, 0] < 1 ∧ pX.shapiro_delay ![(0:ℝ), 0, 0] = 0 ∧
    1 ≤ norm3 ![(3:ℝ), 4, 0] ∧ 0 ≤ cos_theta pX ![(3:ℝ), 4, 0] ∧
    cos_theta pX ![(3:ℝ), 4, 0] < 1 ∧ 0 ≤ pX.shapiro_delay ![(3:ℝ), 4, 0] := by
  have hn0 : norm3 ![(0:ℝ), 0, 0] = 0 := by
    unfold norm3
    norm_num
  have hn5 : norm3 ![(3:ℝ), 4, 0] = 5 := by
    unfold norm3
    norm_num
    rw [show (25:ℝ) = 5 ^ 2 by norm_num, Real.sqrt_sq (by norm_num : (0:ℝ) ≤ 5)]
  have hc : cos_theta pX ![(3:ℝ), 4, 0] = 3 / 5 := by
    unfold cos_theta normalize3
    rw [hn5]
    norm_num [pX]
  have h0 : norm3 ![(0:ℝ), 0, 0] < 1 := by
    rw [hn0]
    norm_num
  have h1 : (1:ℝ) ≤ norm3 ![(3:ℝ), 4, 0] := by
    rw [hn5]
    norm_num
  have h2 : 0 ≤ cos_theta pX ![(3:ℝ), 4, 0] := by
    rw [hc]
    norm_num
  have h3 : cos_theta pX ![(3:ℝ), 4, 0] < 1 := by
    rw [hc]
    norm_num
  exact ⟨h0, (shapiro_delay_cases pX ![0, 0, 0]).1 h0, h1, h2, h3,
    (shapiro_delay_cases pX ![3, 4, 0]).2.2 h1 h2 h3⟩

/-- C4: `simulate_photons` returns the empty list whenever
`flux * duration ≤ 0` (in particular for zero flux or zero duration,
with no assumption on the pulsar at all), and its output is always sorted
ascending; with positive flux and period and in-range uniform draws,
every returned timestamp `t` moreover satisfies `0 ≤ t < duration`. -/
theorem simulate_photons_spec (p : Pulsar) (duration : ℝ) (nPhotons : ℕ)
    (draws : ℕ → PhotonDraw) :
    (p.flux * duration ≤ 0 →
      p.simulate_photons duration nPhotons draws = []) ∧
    List.Sorted (· ≤ ·) (p.simulate_photons duration nPhotons draws) ∧
    (0 < p.period → 0 < p.flux →
      (∀ i, 0 ≤ (draws i).uniformPhase ∧ 0 ≤ (draws i).windowU) →
      ∀ t ∈ p.simulate_photons duration nPhotons draws,
        0 ≤ t ∧ t < duration) := by
  refine ⟨fun hle => by simp [Pulsar.simulate_photons, if_pos hle], ?_, ?_⟩
  · unfold Pulsar.simulate_photons
    split
    · exact List.sorted_nil
    · exact List.sorted_insertionSort _ _
  · intro hperiod hflux hdraws t ht
    unfold Pulsar.simulate_photons at ht
    split at ht
    · simp at ht
    · rename_i hguard
      have hdur : 0 < duration := by
        have hpos : 0 < p.flux * duration := not_le.mp hguard
        by_contra hnd
        push_neg at hnd
        have hnp : p.flux * duration ≤ 0 :=
          mul_nonpos_iff.mpr (Or.inl ⟨hflux.le, hnd⟩)
        linarith
      have ht2 := (List.perm_insertionSort (· ≤ ·) _).mem_iff.mp ht
      rcases List.mem_filterMap.mp ht2 with ⟨idx, _hidx, hf⟩
      dsimp only at hf
      set ph := (if (draws idx).isSignal = true then
          (draws idx).normalPhase - (⌊(draws idx).normalPhase⌋ : ℝ)
        else (draws idx).uniformPhase) with hph_def
      have hph : 0 ≤ ph := by
        rw [hph_def]
        split
        · have := Int.floor_le (draws idx).normalPhase
          linarith
        · exact (hdraws idx).1
      split at hf
      · rename_i hlt
        injection hf with hf2
        subst hf2
        refine ⟨?_, hlt⟩
        have htw : (0:ℝ) ≤ (⌊(draws idx).windowU * duration / p.period⌋ : ℝ) := by
          have hw : 0 ≤ (draws idx).windowU * duration :=
            mul_nonneg (hdraws idx).2 hdur.le
          have hz : (0:ℤ) ≤ ⌊(draws idx).windowU * duration / p.period⌋ :=
            Int.floor_nonneg.mpr (div_nonneg hw hperiod.le)
          exact_mod_cast hz
        exact mul_nonneg (add_nonneg htw hph) hperiod.le
      · cases hf

/-- Witness for C4: a zero-flux pulsar really yields the empty sequence
with no side conditions, and the x-axis pulsar with one Poisson photon and
an all-zero draw record exercises the sortedness and range conjuncts. -/
theorem simulate_photons_spec_witness :
    (pZero.flux * 1 ≤ 0 ∧
      pZero.simulate_photons 1 1 (fun _ => ⟨false, 0, 0, 0⟩) = []) ∧
    List.Sorted (· ≤ ·)
      (pX.simulate_photons 1 1 (fun _ => ⟨false, 0, 0, 0⟩)) ∧
    0 < pX.period ∧ 0 < pX.flux ∧
    ∀ t ∈ pX.simulate_photons 1 1 (fun _ => ⟨false, 0, 0, 0⟩),
      0 ≤ t ∧ t < 1 := by
  have hz : pZero.flux * 1 ≤ 0 := by norm_num [pZero]
  have h := simulate_photons_spec pX 1 1 (fun _ => ⟨false, 0, 0, 0⟩)
  exact ⟨⟨hz,
      (simulate_photons_spec pZero 1 1 (fun _ => ⟨false, 0, 0, 0⟩)).1 hz⟩,
    h.2.1, by norm_num [pX], by norm_num [pX],
    h.2.2 (by norm_num [pX]) (by norm_num [pX]) (fun i => ⟨le_rfl, le_rfl⟩)⟩

/-- C6: with `n > 0` photons, both the perturbation draw and the reported
uncertainty use the same standard deviation `(width * period) / sqrt n`,
and the variance handed to the filter is `(sigma * c)^2`; with zero
photons the perturbation is zero and the variance is the sentinel
`(1e9 * c)^2`. -/
theorem measurement_step_spec (p : Pulsar) (perfect_delay : ℝ)
    (photon_times : List ℝ) (zdraw : ℝ) :
    (photon_times ≠ [] →
      measurement_step p perfect_delay photon_times zdraw =
        (perfect_delay +
            p.width * p.period / Real.sqrt (photon_times.length : ℝ) * zdraw,
         (p.width * p.period / Real.sqrt (photon_times.length : ℝ) *
            C_LIGHT) ^ 2)) ∧
    measurement_step p perfect_delay [] zdraw =
      (perfect_delay, (1.0e9 * C_LIGHT) ^ 2) := by
  constructor
  · intro hne
    cases photon_times with
    | nil => exact absurd rfl hne
    | cons a as => simp [measurement_step]
  · simp [measurement_step]

/-- Witness for C6 at a single-photon list. -/
theorem measurement_step_spec_witness :
    (([(0:ℝ)]) ≠ []) ∧
    measurement_step pX 0 [(0:ℝ)] 2 =
      (0 + pX.width * pX.period / Real.sqrt (([(0:ℝ)]).length : ℝ) * 2,
       (pX.width * pX.period / Real.sqrt (([(0:ℝ)]).length : ℝ) *
          C_LIGHT) ^ 2) := by
  have hne : ([(0:ℝ)]) ≠ [] := by simp
  exact ⟨hne, (measurement_step_spec pX 0 [(0:ℝ)] 2).1 hne⟩

/-- C8: every pulsar built through `Pulsar::new` has width exactly 0.05,
whatever the constructor inputs, and therefore so does every pulsar
produced by the `from_par_file` loop, whose parsed fields never include a
width. -/
theorem pulsar_width_const :
    (∀ (id : String) (ra_deg dec_deg period flux : ℝ),
      (Pulsar.new id ra_deg dec_deg period flux).width = 0.05) ∧
    (∀ (pf : String → Option ℝ) (lines : List String) (p : Pulsar),
      from_par_lines pf lines = Except.ok p → p.width = 0.05) := by
  constructor
  · intro id ra_deg dec_deg period flux
    rfl
  · intro pf lines p h
    unfold from_par_lines at h
    cases hacc : lines.foldlM (processParLine pf) ⟨"", 0, 0, 0.010⟩ with
    | error e =>
        rw [hacc] at h
        simp only [bind, Except.bind] at h
        cases h
    | ok acc =>
        rw [hacc] at h
        simp only [bind, Except.bind] at h
        injection h with h2
        rw [← h2]
        rfl

/-- Witness for C8 on an empty parameter file. -/
theorem pulsar_width_const_witness :
    from_par_lines (fun _ => none) [] =
      Except.ok (Pulsar.new "" 0 0 0.010 1.0) ∧
    (Pulsar.new "" 0 0 0.010 1.0).width = 0.05 := by
  have hrun : from_par_lines (fun _ => none) [] =
      Except.ok (Pulsar.new "" 0 0 0.010 1.0) := by
    rfl
  exact ⟨hrun, pulsar_width_const.2 (fun _ => none) [] _ hrun⟩

end
